import Mathlib

/-!
Verification of the retrieval and ranking subsystem of the AI-powered thesis
repository (backend services: vectorUtils, searchService, chatService,
aiService).

Modelling conventions:
* JavaScript floating-point numbers are modelled as rationals (`ℚ`); the
  claims under study concern exact guards, filters and orderings, not
  rounding behaviour.
* `Math.sqrt` is modelled as an abstract parameter `msqrt : ℚ → ℚ`; the only
  fact about it that the code relies on for the properties below is
  `msqrt 0 = 0`, stated as a hypothesis where needed (IEEE `sqrt(0) = 0`).
* Thrown JavaScript errors are modelled with `Except JsError`.
* The MongoDB `$vectorSearch` index stage is an external collaborator and is
  modelled as an oracle argument `vectorIndex`; the rest of the aggregation
  pipeline (`$addFields` score, `$match` on threshold, `$project`) is
  modelled directly.
* The external text-generation service (`aiService.generateText`) is an
  oracle argument; the outcome of one awaited call is an `Except JsError
  String` value.
* `Array.prototype.sort` with comparator `(a, b) => b.score - a.score` is a
  sort in descending score order, modelled with `List.insertionSort` on the
  relation `scoreDesc`.
-/

/-- Errors thrown by the services under study. -/
inductive JsError where
  | dimensionMismatch
  | thesisNotFound
  deriving DecidableEq, Repr

/-- `dotProduct` from `utils/vectorUtils.js`: throws when the lengths differ,
otherwise sums the elementwise products. -/
def dotProduct (vecA vecB : List ℚ) : Except JsError ℚ :=
  if vecA.length ≠ vecB.length then
    Except.error JsError.dimensionMismatch
  else
    Except.ok ((vecA.zip vecB).foldl (fun product p => product + p.1 * p.2) 0)

/-- Sum of squares of the entries of a vector (the pre-`sqrt` accumulator of
the norm computations in `vectorUtils.js` and `aiService.js`). -/
def sumSquares (v : List ℚ) : ℚ :=
  v.foldl (fun acc x => acc + x * x) 0

/-- `cosineSimilarity` from `utils/vectorUtils.js`: length guard, one pass
accumulating dot product and both squared norms, square roots, then the
zero-norm guard before dividing. -/
def cosineSimilarity (msqrt : ℚ → ℚ) (vecA vecB : List ℚ) : Except JsError ℚ :=
  if vecA.length ≠ vecB.length then
    Except.error JsError.dimensionMismatch
  else
    let dot := (vecA.zip vecB).foldl (fun acc p => acc + p.1 * p.2) 0
    let normA := msqrt (sumSquares vecA)
    let normB := msqrt (sumSquares vecB)
    if normA = 0 ∨ normB = 0 then Except.ok 0
    else Except.ok (dot / (normA * normB))

/-- `euclideanDistance` from `utils/vectorUtils.js`. -/
def euclideanDistance (msqrt : ℚ → ℚ) (vecA vecB : List ℚ) : Except JsError ℚ :=
  if vecA.length ≠ vecB.length then
    Except.error JsError.dimensionMismatch
  else
    Except.ok (msqrt ((vecA.zip vecB).foldl (fun acc p => acc + (p.1 - p.2) * (p.1 - p.2)) 0))

/-- `normalizeVector` from `utils/vectorUtils.js`. -/
def normalizeVector (msqrt : ℚ → ℚ) (vec : List ℚ) : List ℚ :=
  let norm := msqrt (sumSquares vec)
  if norm = 0 then vec else vec.map (fun val => val / norm)

/-- A stored thesis document (`models/Thesis`): id, title, abstract, tags,
embedding vector, creation timestamp. -/
structure Thesis where
  _id : ℕ
  title : String
  abstract : String
  tags : List String
  createdAt : ℕ
  embeddings : List ℚ
  deriving DecidableEq, Repr

/-- A search result entry: the thesis projection (embeddings stripped) plus
the similarity `score` attached by the search paths. -/
structure ScoredThesis where
  _id : ℕ
  title : String
  abstract : String
  tags : List String
  createdAt : ℕ
  score : ℚ
  deriving DecidableEq, Repr

/-- The `.map` step of the manual search paths: attach to each thesis the dot
product of the fixed vector `v` with its embeddings, dropping the embeddings
from the produced record.  A `dotProduct` dimension mismatch throws out of
the whole map, as in JavaScript. -/
def mapScores (v : List ℚ) : List Thesis → Except JsError (List ScoredThesis)
  | [] => Except.ok []
  | thesis :: rest =>
      match dotProduct v thesis.embeddings with
      | Except.error err => Except.error err
      | Except.ok score =>
          match mapScores v rest with
          | Except.error err => Except.error err
          | Except.ok tail =>
              Except.ok ({ _id := thesis._id, title := thesis.title,
                           abstract := thesis.abstract, tags := thesis.tags,
                           createdAt := thesis.createdAt, score := score } :: tail)

/-- Descending-score order used by the `.sort((a, b) => b.score - a.score)`
calls in `searchService.js`. -/
def scoreDesc (a b : ScoredThesis) : Prop :=
  b.score ≤ a.score

instance : DecidableRel scoreDesc :=
  fun a b => inferInstanceAs (Decidable (b.score ≤ a.score))

instance : IsTotal ScoredThesis scoreDesc :=
  ⟨fun a b => le_total b.score a.score⟩

instance : IsTrans ScoredThesis scoreDesc :=
  ⟨fun _ _ _ hab hbc => le_trans hbc hab⟩

/-- `SearchService.manualVectorSearch`: score every stored thesis by dot
product against the query embedding, keep the scores `≥ threshold`, sort
descending by score, truncate to `limit`. -/
def manualVectorSearch (store : List Thesis) (queryEmbedding : List ℚ)
    (limit : ℕ) (threshold : ℚ) : Except JsError (List ScoredThesis) :=
  match mapScores queryEmbedding store with
  | Except.error err => Except.error err
  | Except.ok resultsWithScores =>
      Except.ok
        (((resultsWithScores.filter
              (fun result => decide (threshold ≤ result.score))).insertionSort
            scoreDesc).take limit)

/-- The candidate pool size (`numCandidates`) that
`SearchService.atlasVectorSearch` puts in its `$vectorSearch` stage: the
constant `100`, whatever the requested `limit`. -/
def atlasNumCandidates (limit : ℕ) : ℕ :=
  100

/-- `SearchService.atlasVectorSearch`: the `$vectorSearch` stage is executed
by the external index, modelled by the oracle `vectorIndex` receiving the
query vector, the candidate pool size and the limit and returning candidates
already carrying their `$meta` score (the `$addFields` stage); the `$match`
stage then drops every candidate whose score is below `threshold`. -/
def atlasVectorSearch (vectorIndex : List ℚ → ℕ → ℕ → List ScoredThesis)
    (queryEmbedding : List ℚ) (limit : ℕ) (threshold : ℚ) : List ScoredThesis :=
  let candidates := vectorIndex queryEmbedding (atlasNumCandidates limit) limit
  candidates.filter (fun candidate => decide (threshold ≤ candidate.score))

/-- `SearchService.findSimilarTheses`: load the reference thesis (throwing
`thesisNotFound` when absent), scan every thesis with a different id, score
each by dot product against the reference embeddings, sort descending and
truncate to `limit`.  No threshold filter is applied. -/
def findSimilarTheses (store : List Thesis) (thesisId : ℕ) (limit : ℕ) :
    Except JsError (List ScoredThesis) :=
  match store.find? (fun t => t._id == thesisId) with
  | none => Except.error JsError.thesisNotFound
  | some referenceThesis =>
      match mapScores referenceThesis.embeddings
          (store.filter (fun t => t._id != thesisId)) with
      | Except.error err => Except.error err
      | Except.ok resultsWithScores =>
          Except.ok ((resultsWithScores.insertionSort scoreDesc).take limit)

/-- The loop body of `AIService.simulateEmbeddings`: add `charCode / 1000`
to the entry at index `charCode % dimension`. -/
def simulateStep (dimension : ℕ) (emb : List ℚ) (charCode : ℕ) : List ℚ :=
  emb.set (charCode % dimension) (emb.getD (charCode % dimension) 0 + (charCode : ℚ) / 1000)

/-- `AIService.simulateEmbeddings`: a 768-entry zero vector accumulates
`charCode / 1000` at index `charCode % 768` for each character code of the
text, and the result is divided by `norm || 1` (the JavaScript `||` picks 1
when the norm is 0).  The text is modelled as its sequence of character
codes. -/
def simulateEmbeddings (msqrt : ℚ → ℚ) (text : List ℕ) : List ℚ :=
  let dimension := 768
  let embedding : List ℚ := List.replicate dimension 0
  let filled := text.foldl (simulateStep dimension) embedding
  let norm := msqrt (sumSquares filled)
  filled.map (fun val => val / (if norm = 0 then 1 else norm))

/-- A conversation turn (`{ role, content }`); `role` is the string
`"user"` or `"assistant"`. -/
structure Turn where
  role : String
  content : String
  deriving DecidableEq, Repr

/-- One entry of the `sources` list assembled by
`ChatService.processMessage`. -/
structure ChatSource where
  id : ℕ
  title : String
  tags : List String
  relevanceScore : ℚ
  deriving DecidableEq, Repr

/-- The value returned by `ChatService.processMessage`. -/
structure ChatResult where
  answer : String
  sources : List ChatSource
  conversationHistory : List Turn
  deriving DecidableEq, Repr

instance {ε α : Type} [DecidableEq ε] [DecidableEq α] : DecidableEq (Except ε α) :=
  fun a b =>
    match a, b with
    | Except.error e1, Except.error e2 =>
        if h : e1 = e2 then isTrue (by rw [h])
        else isFalse (fun hc => by cases hc; exact h rfl)
    | Except.error _, Except.ok _ => isFalse (fun hc => by cases hc)
    | Except.ok _, Except.error _ => isFalse (fun hc => by cases hc)
    | Except.ok a1, Except.ok a2 =>
        if h : a1 = a2 then isTrue (by rw [h])
        else isFalse (fun hc => by cases hc; exact h rfl)

/-- The JavaScript `String.prototype.trim`: drop leading and trailing
whitespace.  (Modelled structurally on the character list.) -/
def jsTrim (s : String) : String :=
  String.mk (((s.data.dropWhile Char.isWhitespace).reverse.dropWhile
      Char.isWhitespace).reverse)

/-- One step of `collapseNewlines`: the boolean records whether the previous
character was a newline, so that each maximal run of newlines is replaced by
a single space (the JavaScript `replace(/\n+/g, ' ')`). -/
def collapseNLAux : Bool → List Char → List Char
  | _, [] => []
  | prevNL, c :: rest =>
      if c = '\n' then
        if prevNL then collapseNLAux true rest
        else ' ' :: collapseNLAux true rest
      else c :: collapseNLAux false rest

/-- `cleanedQuery.replace(/\n+/g, ' ')` from `ChatService.rewriteQuery`. -/
def collapseNewlines (s : String) : String :=
  String.mk (collapseNLAux false s.data)

/-- Drop a leading quote character (double or single quote), if any. -/
def stripLeadingQuote : List Char → List Char
  | [] => []
  | c :: rest => if c == '"' || c == '\'' then rest else c :: rest

/-- `cleanedQuery.replace(/^["']|["']$/g, '')` from
`ChatService.rewriteQuery`: removes one leading and one trailing quote
character (double or single quote). -/
def stripOuterQuotes (s : String) : String :=
  String.mk ((stripLeadingQuote (stripLeadingQuote s.data).reverse).reverse)

/-- The cleanup pipeline of `ChatService.rewriteQuery`: trim, strip wrapping
quotes, collapse newline runs to spaces, trim again. -/
def cleanedQueryOf (optimizedQuery : String) : String :=
  jsTrim (collapseNewlines (stripOuterQuotes (jsTrim optimizedQuery)))

/-- `ChatService.rewriteQuery`: the whole body sits in a `try` whose `catch`
returns `userQuery`, so the outcome of the awaited generation call is taken
as an `Except` argument; a failed call, or a cleaned output that is empty or
shorter than 3 characters, falls back to `userQuery`. -/
def rewriteQuery (genOutcome : Except JsError String) (userQuery : String) : String :=
  match genOutcome with
  | Except.error _ => userQuery
  | Except.ok optimizedQuery =>
      let cleanedQuery := cleanedQueryOf optimizedQuery
      if cleanedQuery = "" ∨ cleanedQuery.length < 3 then userQuery
      else cleanedQuery

/-- `ChatService.buildContext`: number the retrieved theses and concatenate
title, abstract and (when present) tags. -/
def buildContext (theses : List ScoredThesis) : String :=
  theses.enum.foldl
    (fun context p =>
      context ++ "Thesis " ++ toString (p.1 + 1) ++ ":\n"
        ++ "Title: " ++ p.2.title ++ "\n"
        ++ "Abstract: " ++ p.2.abstract ++ "\n"
        ++ (if p.2.tags.length > 0 then
              "Tags: " ++ String.intercalate ", " p.2.tags ++ "\n"
            else "")
        ++ "\n")
    "Here are some relevant theses from the repository:\n\n"

/-- One line of the conversation block of the RAG prompt. -/
def turnLine (turn : Turn) : String :=
  (if turn.role = "user" then "User" else "Assistant") ++ ": " ++ turn.content ++ "\n"

/-- The `Previous conversation:` block of the RAG prompt (empty when the
history is empty). -/
def historyBlock (conversationHistory : List Turn) : String :=
  if conversationHistory.length > 0 then
    "Previous conversation:\n"
      ++ conversationHistory.foldl (fun acc turn => acc ++ turnLine turn) ""
      ++ "\n"
  else ""

/-- The fixed opening of the prompt built by
`ChatService.generateRAGResponse`. -/
def ragPreamble : String :=
  "You are an AI assistant helping users explore an academic thesis repository. Your role is to answer questions about theses based on the provided context.\n\nContext from the thesis repository:\n"

/-- The fixed instruction/answer trailer of the prompt built by
`ChatService.generateRAGResponse`, starting right after the user question. -/
def ragInstructions : String :=
  "\n\nInstructions:\n- Answer based on the provided thesis context\n- Be concise but informative\n- If the context doesn't contain enough information, say so\n- Reference specific theses when relevant (e.g., \"According to Thesis 1...\" or \"The research on [topic] shows...\")\n- If asked about topics not in the context, politely state that you don't have that information in the repository\n- Use natural, conversational language\n\nAnswer:"

/-- The full prompt built by `ChatService.generateRAGResponse`; the
`User question:` slot receives `userMessage`. -/
def ragPrompt (userMessage context : String) (conversationHistory : List Turn) : String :=
  ragPreamble ++ context ++ "\n\n" ++ historyBlock conversationHistory
    ++ "User question: " ++ userMessage ++ ragInstructions

/-- `ChatService.generateRAGResponse`: calls the external generation service
(the oracle `gen`) on the RAG prompt and trims the answer; a generation
error propagates. -/
def generateRAGResponse (gen : String → Except JsError String)
    (userMessage context : String) (conversationHistory : List Turn) :
    Except JsError String :=
  match gen (ragPrompt userMessage context conversationHistory) with
  | Except.error err => Except.error err
  | Except.ok answer => Except.ok (jsTrim answer)

/-- The canned answer returned by `ChatService.processMessage` when
retrieval finds nothing. -/
def cannedNoInfoAnswer : String :=
  "I couldn't find any relevant theses in the repository to answer your question. Please try rephrasing your query or asking about different topics."

/-- `ChatService.processMessage`: rewrite the query (the outcome of the
rewrite generation call is the `Except` argument `rewriteGen`), retrieve
with the optimized query (`search` is the semantic-search collaborator,
called with the service-fixed `topK`/`0.3` options), short-circuit on empty
retrieval, otherwise build context, generate the grounded answer and
assemble sources and updated history. -/
def processMessage (rewriteGen : Except JsError String)
    (search : String → List ScoredThesis)
    (gen : String → Except JsError String)
    (message : String) (conversationHistory : List Turn) :
    Except JsError ChatResult :=
  let optimizedQuery := rewriteQuery rewriteGen message
  let relevantTheses := search optimizedQuery
  if relevantTheses.length = 0 then
    Except.ok { answer := cannedNoInfoAnswer, sources := [],
                conversationHistory :=
                  conversationHistory ++ [{ role := "user", content := message }] }
  else
    let context := buildContext relevantTheses
    match generateRAGResponse gen message context conversationHistory with
    | Except.error err => Except.error err
    | Except.ok answer =>
        Except.ok { answer := answer,
                    sources := relevantTheses.map (fun thesis =>
                      { id := thesis._id, title := thesis.title, tags := thesis.tags,
                        relevanceScore := thesis.score }),
                    conversationHistory := conversationHistory
                      ++ [{ role := "user", content := message },
                          { role := "assistant", content := answer }] }

/-! ## Helper lemmas -/

theorem mapScores_ok_cons {v : List ℚ} {t : Thesis} {rest : List Thesis}
    {rs : List ScoredThesis} (h : mapScores v (t :: rest) = Except.ok rs) :
    ∃ s tail, dotProduct v t.embeddings = Except.ok s
      ∧ mapScores v rest = Except.ok tail
      ∧ rs = { _id := t._id, title := t.title, abstract := t.abstract,
               tags := t.tags, createdAt := t.createdAt, score := s } :: tail := by
  simp only [mapScores] at h
  cases hd : dotProduct v t.embeddings with
  | error e => rw [hd] at h; simp at h
  | ok s =>
      rw [hd] at h
      cases hm : mapScores v rest with
      | error e => rw [hm] at h; simp at h
      | ok tail =>
          rw [hm] at h
          simp only [Except.ok.injEq] at h
          exact ⟨s, tail, rfl, rfl, h.symm⟩

theorem mapScores_ok_mem {v : List ℚ} :
    ∀ {ts : List Thesis} {rs : List ScoredThesis},
      mapScores v ts = Except.ok rs → ∀ r ∈ rs, ∃ t ∈ ts, r._id = t._id := by
  intro ts
  induction ts with
  | nil =>
      intro rs h r hr
      simp only [mapScores, Except.ok.injEq] at h
      subst h
      cases hr
  | cons t rest ih =>
      intro rs h r hr
      obtain ⟨s, tail, _, hm, hrs⟩ := mapScores_ok_cons h
      subst hrs
      rcases List.mem_cons.mp hr with hr | hr
      · subst hr; exact ⟨t, List.mem_cons_self t rest, rfl⟩
      · obtain ⟨t2, ht2, hid⟩ := ih hm r hr
        exact ⟨t2, List.mem_cons_of_mem _ ht2, hid⟩

theorem mapScores_ok_forall {v : List ℚ} :
    ∀ {ts : List Thesis} {rs : List ScoredThesis},
      mapScores v ts = Except.ok rs → ∀ t ∈ ts, ∃ r ∈ rs, r._id = t._id := by
  intro ts
  induction ts with
  | nil =>
      intro rs h t ht
      cases ht
  | cons t0 rest ih =>
      intro rs h t ht
      obtain ⟨s, tail, _, hm, hrs⟩ := mapScores_ok_cons h
      subst hrs
      rcases List.mem_cons.mp ht with ht | ht
      · subst ht
        exact ⟨_, List.mem_cons_self _ _, rfl⟩
      · obtain ⟨r, hr, hid⟩ := ih hm t ht
        exact ⟨r, List.mem_cons_of_mem _ hr, hid⟩

theorem mapScores_ok_length {v : List ℚ} :
    ∀ {ts : List Thesis} {rs : List ScoredThesis},
      mapScores v ts = Except.ok rs → rs.length = ts.length := by
  intro ts
  induction ts with
  | nil =>
      intro rs h
      simp only [mapScores, Except.ok.injEq] at h
      subst h
      rfl
  | cons t rest ih =>
      intro rs h
      obtain ⟨s, tail, _, hm, hrs⟩ := mapScores_ok_cons h
      subst hrs
      simp [ih hm]

theorem manualVectorSearch_ok {store : List Thesis} {q : List ℚ} {limit : ℕ}
    {threshold : ℚ} {res : List ScoredThesis}
    (h : manualVectorSearch store q limit threshold = Except.ok res) :
    ∃ rs, mapScores q store = Except.ok rs
      ∧ res = ((rs.filter
            (fun r => decide (threshold ≤ r.score))).insertionSort scoreDesc).take limit := by
  unfold manualVectorSearch at h
  cases hm : mapScores q store with
  | error e => rw [hm] at h; simp at h
  | ok rs =>
      rw [hm] at h
      simp only [Except.ok.injEq] at h
      exact ⟨rs, rfl, h.symm⟩

theorem findSimilarTheses_ok {store : List Thesis} {thesisId limit : ℕ}
    {res : List ScoredThesis}
    (h : findSimilarTheses store thesisId limit = Except.ok res) :
    ∃ ref rs, store.find? (fun t => t._id == thesisId) = some ref
      ∧ mapScores ref.embeddings (store.filter (fun t => t._id != thesisId)) = Except.ok rs
      ∧ res = (rs.insertionSort scoreDesc).take limit := by
  unfold findSimilarTheses at h
  cases hf : store.find? (fun t => t._id == thesisId) with
  | none => rw [hf] at h; simp at h
  | some ref =>
      rw [hf] at h
      dsimp only at h
      cases hm : mapScores ref.embeddings (store.filter (fun t => t._id != thesisId)) with
      | error e => rw [hm] at h; simp at h
      | ok rs =>
          rw [hm] at h
          simp only [Except.ok.injEq] at h
          exact ⟨ref, rs, rfl, hm, h.symm⟩

theorem take_sort_mem {l : List ScoredThesis} {r : ScoredThesis} {n : ℕ}
    (h : r ∈ (l.insertionSort scoreDesc).take n) : r ∈ l :=
  (List.perm_insertionSort scoreDesc l).subset ((List.take_sublist n _).subset h)

theorem take_sort_pairwise (l : List ScoredThesis) (n : ℕ) :
    ((l.insertionSort scoreDesc).take n).Pairwise (fun a b => b.score ≤ a.score) :=
  List.Pairwise.sublist (List.take_sublist n _) (List.sorted_insertionSort scoreDesc l)

/-! ## Claim theorems -/

/-- Claim C1 (P5, threshold filter): on both the indexed path
(`atlasVectorSearch`, whatever candidates the external index returns) and
the manual fallback path (`manualVectorSearch`), no element of the returned
result list has score strictly less than the supplied threshold. -/
theorem search_threshold_filter
    (vectorIndex : List ℚ → ℕ → ℕ → List ScoredThesis) (store : List Thesis)
    (queryEmbedding : List ℚ) (limit : ℕ) (threshold : ℚ) :
    (∀ r ∈ atlasVectorSearch vectorIndex queryEmbedding limit threshold,
        threshold ≤ r.score)
    ∧ (∀ res, manualVectorSearch store queryEmbedding limit threshold = Except.ok res →
        ∀ r ∈ res, threshold ≤ r.score) := by
  constructor
  · intro r hr
    simp only [atlasVectorSearch, List.mem_filter, decide_eq_true_eq] at hr
    exact hr.2
  · intro res hres r hr
    obtain ⟨rs, _, hshape⟩ := manualVectorSearch_ok hres
    subst hshape
    have hmem := take_sort_mem hr
    simp only [List.mem_filter, decide_eq_true_eq] at hmem
    exact hmem.2

/-- Claim C1 witness: a concrete candidate returned by each path meets the
threshold `0`. -/
theorem search_threshold_filter_witness :
    ((⟨1, "t", "a", [], 0, (1:ℚ)⟩ : ScoredThesis) ∈
        atlasVectorSearch (fun _ _ _ => [⟨1, "t", "a", [], 0, 1⟩]) [] 1 0)
    ∧ (manualVectorSearch [⟨1, "t", "a", [], 0, []⟩] [] 1 0
        = Except.ok [⟨1, "t", "a", [], 0, 0⟩])
    ∧ (0:ℚ) ≤ (⟨1, "t", "a", [], 0, (1:ℚ)⟩ : ScoredThesis).score
    ∧ (0:ℚ) ≤ (⟨1, "t", "a", [], 0, (0:ℚ)⟩ : ScoredThesis).score :=
  ⟨by decide, by decide,
   (search_threshold_filter (fun _ _ _ => [⟨1, "t", "a", [], 0, 1⟩])
       [⟨1, "t", "a", [], 0, []⟩] [] 1 0).1 _ (by decide),
   (search_threshold_filter (fun _ _ _ => [⟨1, "t", "a", [], 0, 1⟩])
       [⟨1, "t", "a", [], 0, []⟩] [] 1 0).2 [⟨1, "t", "a", [], 0, 0⟩]
     (by decide) _ (by decide)⟩

/-- Claim C2 (P4/P6 on the manual path): an empty document collection yields
an empty result (not an error), and whenever `manualVectorSearch` returns a
result it has length at most `limit` and its scores are non-increasing
across the sequence. -/
theorem manualVectorSearch_contract (store : List Thesis) (queryEmbedding : List ℚ)
    (limit : ℕ) (threshold : ℚ) :
    manualVectorSearch [] queryEmbedding limit threshold = Except.ok []
    ∧ (∀ res, manualVectorSearch store queryEmbedding limit threshold = Except.ok res →
        res.length ≤ limit ∧ res.Pairwise (fun a b => b.score ≤ a.score)) := by
  constructor
  · simp [manualVectorSearch, mapScores]
  · intro res hres
    obtain ⟨rs, _, hshape⟩ := manualVectorSearch_ok hres
    subst hshape
    exact ⟨List.length_take_le _ _, take_sort_pairwise _ limit⟩

/-- Claim C2 witness: a one-document store searched with limit 1 and
threshold 0 produces a one-element, trivially sorted result. -/
theorem manualVectorSearch_contract_witness :
    (manualVectorSearch [⟨1, "t", "a", [], 0, []⟩] [] 1 0
       = Except.ok [⟨1, "t", "a", [], 0, 0⟩])
    ∧ ([(⟨1, "t", "a", [], 0, 0⟩ : ScoredThesis)].length ≤ 1
       ∧ [(⟨1, "t", "a", [], 0, 0⟩ : ScoredThesis)].Pairwise
           (fun a b => b.score ≤ a.score)) :=
  ⟨by decide,
   (manualVectorSearch_contract [⟨1, "t", "a", [], 0, []⟩] [] 1 0).2
     [⟨1, "t", "a", [], 0, 0⟩] (by decide)⟩

/-- Claim C3 counterexample: the indexed path passes the constant candidate
pool size 100 to the index, so for the request limit 101 the pool is
strictly smaller than the limit — the claimed "pool size at least limit for
every limit" is false.  An index oracle that hands back a (threshold
passing) candidate exactly when it receives a pool of at least 101 returns
nothing through `atlasVectorSearch` at limit 101. -/
theorem atlas_pool_smaller_than_limit :
    atlasNumCandidates 101 < 101
    ∧ atlasVectorSearch
        (fun _ numCandidates _ =>
          if 101 ≤ numCandidates then [⟨0, "", "", [], 0, 0⟩] else [])
        [] 101 0 = [] :=
  ⟨by decide, by decide⟩

/-- Claim C3 (amended): the indexed search path passes the document store
the fixed candidate pool size 100, independent of `limit`; this is at least
`limit` exactly when `limit ≤ 100`, and equals 10x the service's default
limit of 10. -/
theorem atlasNumCandidates_fixed (limit : ℕ) :
    atlasNumCandidates limit = 100
    ∧ (limit ≤ 100 → limit ≤ atlasNumCandidates limit) := by
  exact ⟨rfl, fun h => h⟩

/-- Claim C3 witness: at the default limit 10 the pool bound holds. -/
theorem atlasNumCandidates_fixed_witness :
    (10 : ℕ) ≤ 100 ∧ (10 : ℕ) ≤ atlasNumCandidates 10 :=
  ⟨by decide, (atlasNumCandidates_fixed 10).2 (by decide)⟩

/-- Claim C6 (P8, findSimilar excludes self): whenever `findSimilarTheses`
returns a result, it has at most `limit` elements, scores are non-increasing
(descending similarity to the reference vector), the reference id never
appears among the result ids, and no threshold filter is applied: when there
are at most `limit` other documents, every other document appears in the
result regardless of its score. -/
theorem findSimilarTheses_contract (store : List Thesis) (thesisId limit : ℕ)
    (res : List ScoredThesis)
    (h : findSimilarTheses store thesisId limit = Except.ok res) :
    res.length ≤ limit
    ∧ res.Pairwise (fun a b => b.score ≤ a.score)
    ∧ (∀ r ∈ res, r._id ≠ thesisId)
    ∧ ((store.filter (fun t => t._id != thesisId)).length ≤ limit →
        ∀ t ∈ store, t._id ≠ thesisId → ∃ r ∈ res, r._id = t._id) := by
  obtain ⟨ref, rs, _, hm, hshape⟩ := findSimilarTheses_ok h
  subst hshape
  refine ⟨List.length_take_le _ _, take_sort_pairwise rs limit, ?_, ?_⟩
  · intro r hr
    obtain ⟨t, ht, hid⟩ := mapScores_ok_mem hm r (take_sort_mem hr)
    have htid := (List.mem_filter.mp ht).2
    rw [hid]
    simpa using htid
  · intro hlen t ht htid
    have htf : t ∈ store.filter (fun t => t._id != thesisId) := by
      rw [List.mem_filter]
      exact ⟨ht, by simpa using htid⟩
    obtain ⟨r, hrrs, hid⟩ := mapScores_ok_forall hm t htf
    have hlen2 : (rs.insertionSort scoreDesc).length ≤ limit := by
      rw [(List.perm_insertionSort scoreDesc rs).length_eq, mapScores_ok_length hm]
      exact hlen
    rw [List.take_of_length_le hlen2]
    exact ⟨r, (List.perm_insertionSort scoreDesc rs).mem_iff.mpr hrrs, hid⟩

/-- Claim C6 witness: a two-document store (reference id 1 plus one other
document, id 2) gives a one-element result that satisfies the whole
contract. -/
theorem findSimilarTheses_contract_witness :
    (findSimilarTheses [⟨1, "r", "ra", [], 0, []⟩, ⟨2, "o", "oa", [], 0, []⟩] 1 5
       = Except.ok [⟨2, "o", "oa", [], 0, 0⟩])
    ∧ (([(⟨2, "o", "oa", [], 0, 0⟩ : ScoredThesis)]).length ≤ 5
       ∧ ([(⟨2, "o", "oa", [], 0, 0⟩ : ScoredThesis)]).Pairwise
           (fun a b => b.score ≤ a.score)
       ∧ (∀ r ∈ [(⟨2, "o", "oa", [], 0, 0⟩ : ScoredThesis)], r._id ≠ 1)
       ∧ ((([⟨1, "r", "ra", [], 0, []⟩,
              (⟨2, "o", "oa", [], 0, []⟩ : Thesis)].filter
                (fun t => t._id != 1)).length ≤ 5 →
           ∀ t ∈ [⟨1, "r", "ra", [], 0, []⟩, (⟨2, "o", "oa", [], 0, []⟩ : Thesis)],
             t._id ≠ 1 →
               ∃ r ∈ [(⟨2, "o", "oa", [], 0, 0⟩ : ScoredThesis)], r._id = t._id))) :=
  ⟨by decide,
   findSimilarTheses_contract [⟨1, "r", "ra", [], 0, []⟩, ⟨2, "o", "oa", [], 0, []⟩]
     1 5 [⟨2, "o", "oa", [], 0, 0⟩] (by decide)⟩

/-- Claim C8 (P3, dimension mismatch): every two-argument VectorMath
function fails with the dimension-mismatch error on vectors of different
lengths. -/
theorem vectorMath_dimension_mismatch (msqrt : ℚ → ℚ) (vecA vecB : List ℚ)
    (h : vecA.length ≠ vecB.length) :
    dotProduct vecA vecB = Except.error JsError.dimensionMismatch
    ∧ cosineSimilarity msqrt vecA vecB = Except.error JsError.dimensionMismatch
    ∧ euclideanDistance msqrt vecA vecB = Except.error JsError.dimensionMismatch := by
  refine ⟨?_, ?_, ?_⟩ <;>
    simp only [dotProduct, cosineSimilarity, euclideanDistance, if_pos h]

/-- Claim C8 witness: vectors of lengths 1 and 2. -/
theorem vectorMath_dimension_mismatch_witness :
    (([(1:ℚ)]).length ≠ ([1, 2] : List ℚ).length)
    ∧ (dotProduct [1] [1, 2] = Except.error JsError.dimensionMismatch
       ∧ cosineSimilarity id [1] [1, 2] = Except.error JsError.dimensionMismatch
       ∧ euclideanDistance id [1] [1, 2] = Except.error JsError.dimensionMismatch) :=
  ⟨by decide, vectorMath_dimension_mismatch id [1] [1, 2] (by decide)⟩

/-- Claim C9 (P2, zero-norm safety): for equal-length vectors with at least
one of Euclidean norm 0 (zero sum of squares), `cosineSimilarity` returns
exactly 0 and raises no exception: the division is guarded.  `msqrt 0 = 0`
is the only fact used about `Math.sqrt`. -/
theorem cosineSimilarity_zero_norm (msqrt : ℚ → ℚ) (vecA vecB : List ℚ)
    (hsqrt : msqrt 0 = 0) (hlen : vecA.length = vecB.length)
    (hzero : sumSquares vecA = 0 ∨ sumSquares vecB = 0) :
    cosineSimilarity msqrt vecA vecB = Except.ok 0 := by
  simp only [cosineSimilarity]
  rw [if_neg (not_ne_iff.mpr hlen)]
  rcases hzero with hz | hz
  · rw [hz, hsqrt]
    simp
  · rw [hz, hsqrt]
    simp

/-- Claim C9 witness: two empty vectors (norm 0 on both sides). -/
theorem cosineSimilarity_zero_norm_witness :
    (id (0:ℚ) = 0
     ∧ ([] : List ℚ).length = ([] : List ℚ).length
     ∧ (sumSquares [] = 0 ∨ sumSquares [] = 0))
    ∧ cosineSimilarity id [] [] = Except.ok 0 :=
  ⟨⟨rfl, rfl, Or.inl rfl⟩,
   cosineSimilarity_zero_norm id [] [] rfl rfl (Or.inl rfl)⟩

theorem length_foldl_simulateStep (text : List ℕ) :
    ∀ emb : List ℚ, (text.foldl (simulateStep 768) emb).length = emb.length := by
  induction text with
  | nil => intro emb; rfl
  | cons c rest ih =>
      intro emb
      rw [List.foldl_cons, ih]
      simp [simulateStep]

theorem foldl_squares_replicate_zero :
    ∀ n : ℕ, ∀ acc : ℚ,
      (List.replicate n (0:ℚ)).foldl (fun a x => a + x * x) acc = acc := by
  intro n
  induction n with
  | zero => intro acc; rfl
  | succ m ih =>
      intro acc
      rw [List.replicate_succ, List.foldl_cons, ih]
      ring

/-- Claim C10: `simulateEmbeddings` is total (a Lean function), always
returns a vector of exactly 768 entries, and thanks to the `norm || 1`
guard the empty text (all-zero accumulated vector, norm 0) yields the
768-dimensional zero vector instead of dividing by zero. -/
theorem simulateEmbeddings_total (msqrt : ℚ → ℚ) (text : List ℕ)
    (hsqrt : msqrt 0 = 0) :
    (simulateEmbeddings msqrt text).length = 768
    ∧ (text = [] → simulateEmbeddings msqrt text = List.replicate 768 0) := by
  constructor
  · simp only [simulateEmbeddings]
    rw [List.length_map, length_foldl_simulateStep, List.length_replicate]
  · intro h
    subst h
    simp only [simulateEmbeddings, List.foldl_nil]
    have hz : sumSquares (List.replicate 768 (0:ℚ)) = 0 :=
      foldl_squares_replicate_zero 768 0
    rw [hz, hsqrt]
    have hone : (if (0:ℚ) = 0 then (1:ℚ) else 0) = 1 := if_pos rfl
    rw [hone, List.map_replicate]
    norm_num

/-- Claim C10 witness: the empty text. -/
theorem simulateEmbeddings_total_witness :
    id (0:ℚ) = 0
    ∧ (simulateEmbeddings id []).length = 768
    ∧ simulateEmbeddings id [] = List.replicate 768 0 :=
  ⟨rfl, (simulateEmbeddings_total id [] rfl).1,
   (simulateEmbeddings_total id [] rfl).2 rfl⟩

/-- Claim C4 (P9, rewrite never blocks search): a failed generation call
makes `rewriteQuery` return the original utterance unchanged; so does a
cleaned generation output that is empty or shorter than 3 characters; and
with a failed rewrite call, `processMessage` still completes consulting the
search collaborator only at the original message (two search collaborators
agreeing on the original message give identical chat outcomes). -/
theorem rewriteQuery_never_propagates (e : JsError) (genOut message : String)
    (search search2 : String → List ScoredThesis)
    (gen : String → Except JsError String) (hist : List Turn) :
    rewriteQuery (Except.error e) message = message
    ∧ (cleanedQueryOf genOut = "" ∨ (cleanedQueryOf genOut).length < 3 →
        rewriteQuery (Except.ok genOut) message = message)
    ∧ (search message = search2 message →
        processMessage (Except.error e) search gen message hist
          = processMessage (Except.error e) search2 gen message hist) := by
  refine ⟨rfl, ?_, ?_⟩
  · intro h
    simp only [rewriteQuery]
    rw [if_pos h]
  · intro hsearch
    simp only [processMessage, rewriteQuery]
    rw [hsearch]

/-- Claim C4 witness: a thrown generation call and an empty generation
output both fall back to the message "AI healthcare", and the chat outcome
is the same for two searchers agreeing on that original message. -/
theorem rewriteQuery_never_propagates_witness :
    (cleanedQueryOf "" = "" ∨ (cleanedQueryOf "").length < 3)
    ∧ ((fun _ : String => ([] : List ScoredThesis)) "AI healthcare"
        = (fun _ : String => ([⟨1, "t", "a", [], 0, 1⟩] : List ScoredThesis)) "AI healthcare"
        → True)
    ∧ rewriteQuery (Except.error JsError.thesisNotFound) "AI healthcare" = "AI healthcare"
    ∧ rewriteQuery (Except.ok "") "AI healthcare" = "AI healthcare"
    ∧ processMessage (Except.error JsError.thesisNotFound) (fun _ => [])
        (fun _ => Except.ok "ans") "AI healthcare" []
      = processMessage (Except.error JsError.thesisNotFound) (fun _ => [])
          (fun _ => Except.ok "ans") "AI healthcare" [] := by
  have h := rewriteQuery_never_propagates JsError.thesisNotFound "" "AI healthcare"
      (fun _ => []) (fun _ => []) (fun _ => Except.ok "ans") []
  exact ⟨Or.inl (by decide), fun _ => trivial, h.1, h.2.1 (Or.inl (by decide)),
         h.2.2 rfl⟩

/-- Claim C5 (P10, empty-retrieval chat): when retrieval returns zero
documents, `processMessage` returns (does not throw) the canned non-empty
"no relevant information" answer, an empty sources list, and the input
history with only the user's turn appended; the outcome is the same for any
generation collaborator, so the generation service is not consulted for the
answer. -/
theorem processMessage_empty_retrieval
    (rewriteGen : Except JsError String) (search : String → List ScoredThesis)
    (gen gen2 : String → Except JsError String) (message : String) (hist : List Turn)
    (hempty : search (rewriteQuery rewriteGen message) = []) :
    processMessage rewriteGen search gen message hist
      = Except.ok { answer := cannedNoInfoAnswer, sources := [],
                    conversationHistory :=
                      hist ++ [{ role := "user", content := message }] }
    ∧ cannedNoInfoAnswer ≠ ""
    ∧ processMessage rewriteGen search gen message hist
        = processMessage rewriteGen search gen2 message hist := by
  have hmain : ∀ g : String → Except JsError String,
      processMessage rewriteGen search g message hist
        = Except.ok { answer := cannedNoInfoAnswer, sources := [],
                      conversationHistory :=
                        hist ++ [{ role := "user", content := message }] } := by
    intro g
    simp only [processMessage]
    rw [hempty]
    simp
  exact ⟨hmain gen, by decide, (hmain gen).trans (hmain gen2).symm⟩

/-- Claim C5 witness: a store with nothing relevant. -/
theorem processMessage_empty_retrieval_witness :
    ((fun _ : String => ([] : List ScoredThesis))
        (rewriteQuery (Except.ok "tell me about quantum stuff") "tell me about quantum stuff") = [])
    ∧ processMessage (Except.ok "tell me about quantum stuff") (fun _ => [])
        (fun _ => Except.ok "ans") "tell me about quantum stuff" []
      = Except.ok { answer := cannedNoInfoAnswer, sources := [],
                    conversationHistory :=
                      [] ++ [{ role := "user", content := "tell me about quantum stuff" }] }
    ∧ cannedNoInfoAnswer ≠ ""
    ∧ processMessage (Except.ok "tell me about quantum stuff") (fun _ => [])
        (fun _ => Except.ok "ans") "tell me about quantum stuff" []
      = processMessage (Except.ok "tell me about quantum stuff") (fun _ => [])
          (fun _ => Except.error JsError.thesisNotFound) "tell me about quantum stuff" [] := by
  have h := processMessage_empty_retrieval (Except.ok "tell me about quantum stuff")
      (fun _ => []) (fun _ => Except.ok "ans")
      (fun _ => Except.error JsError.thesisNotFound) "tell me about quantum stuff" [] rfl
  exact ⟨rfl, h.1, h.2.1, h.2.2⟩

/-- Claim C7 (question fidelity): the generation collaborator is consulted
only at the RAG prompt whose `User question:` slot holds the user's original
message — two generation collaborators that agree on that one prompt give
identical chat outcomes — and the rewritten query reaches the prompt only
through which documents the retrieval returned. -/
theorem generation_question_is_original
    (rewriteGen : Except JsError String) (search : String → List ScoredThesis)
    (gen gen2 : String → Except JsError String) (message : String) (hist : List Turn)
    (hgen : gen (ragPrompt message
          (buildContext (search (rewriteQuery rewriteGen message))) hist)
        = gen2 (ragPrompt message
          (buildContext (search (rewriteQuery rewriteGen message))) hist)) :
    processMessage rewriteGen search gen message hist
      = processMessage rewriteGen search gen2 message hist
    ∧ (∀ question context h2, ragPrompt question context h2
        = ragPreamble ++ context ++ "\n\n" ++ historyBlock h2
          ++ "User question: " ++ question ++ ragInstructions) := by
  refine ⟨?_, fun _ _ _ => rfl⟩
  simp only [processMessage, generateRAGResponse]
  rw [hgen]

/-- Claim C7 witness: one retrieved document, with the rewrite outcome and
the generation collaborators fixed concretely. -/
theorem generation_question_is_original_witness :
    processMessage (Except.error JsError.thesisNotFound)
        (fun _ => [⟨2, "o", "oa", [], 0, 1⟩]) (fun _ => Except.ok "ans") "m" []
      = processMessage (Except.error JsError.thesisNotFound)
          (fun _ => [⟨2, "o", "oa", [], 0, 1⟩]) (fun _ => Except.ok "ans") "m" []
    ∧ (∀ question context h2, ragPrompt question context h2
        = ragPreamble ++ context ++ "\n\n" ++ historyBlock h2
          ++ "User question: " ++ question ++ ragInstructions) :=
  generation_question_is_original (Except.error JsError.thesisNotFound)
    (fun _ => [⟨2, "o", "oa", [], 0, 1⟩]) (fun _ => Except.ok "ans")
    (fun _ => Except.ok "ans") "m" [] rfl
